import Mathlib

/-!
Verification development for the customer data-entry repository
(`customerApp.py` and `databaseView.py`).

The embedding models:
* the regex-based field validator (`validate_fields` with `DATE_RE`,
  `EMAIL_RE`, `PHONE_RE`);
* the SQLite-backed record store (`insert_customer`, `fetch_customers`)
  over an explicit list of rows, with the `preferred_contact` CHECK
  constraint of `init_db` given SQLite semantics (a CHECK whose operand
  is NULL is satisfied, and the column carries no NOT NULL);
* the form controller `CustomerApp.submit` / `CustomerApp.clear_form` as
  explicit state passing over form, database and displayed table;
* the standalone viewer `DBViewerApp.load_data` / `_get_db_data` over an
  abstract database environment.

Python strings are modelled as Lean `String`; character classes are
modelled over the ASCII range (`\d` as `0`-`9`, `\s` as the six ASCII
whitespace characters recognised by `str.strip`).  Inside
`validate_fields` every regex is applied to an already-stripped string
(the code calls `.strip()` before `.match`), so a stripped string never
ends in a newline and Python's end-anchor-before-final-newline subtlety
cannot arise; the matchers are therefore exact whole-string matchers.
-/

namespace CustomerApp

/-- The six ASCII whitespace characters stripped by Python `str.strip()`
and matched by `\s` (restricted to ASCII). -/
def isPySpace (c : Char) : Bool :=
  c == ' ' || c == '\t' || c == '\n' || c == '\r' || c == '\x0b' || c == '\x0c'

/-- Python `str.strip()`: remove leading and trailing whitespace. -/
def pyStrip (s : String) : String :=
  String.mk (((s.toList.dropWhile isPySpace).reverse.dropWhile isPySpace).reverse)

/-- Matcher for `DATE_RE = ^\d{4}-\d{2}-\d{2}$` on a character list. -/
def dateCoreL : List Char → Bool
  | [y1, y2, y3, y4, h1, m1, m2, h2, d1, d2] =>
      y1.isDigit && y2.isDigit && y3.isDigit && y4.isDigit &&
      h1 == '-' && m1.isDigit && m2.isDigit &&
      h2 == '-' && d1.isDigit && d2.isDigit
  | _ => false

/-- `DATE_RE.match(s)` (the pattern is fully anchored). -/
def DATE_RE (s : String) : Bool := dateCoreL s.toList

/-- The character class `[^@\s]`: anything but `@` and whitespace. -/
def okEmailChar (c : Char) : Bool := !(c == '@') && !(isPySpace c)

/-- Whether `l` has a dot that is neither its first nor its last
character, i.e. `l` splits as `B ++ . ++ C` with `B`, `C` nonempty. -/
def hasInternalDot (l : List Char) : Bool := ((l.drop 1).dropLast).contains '.'

/-- Matcher for `EMAIL_RE = ^[^@\s]+@[^@\s]+\.[^@\s]+$`: the string is
`A@R` where `A` is a nonempty run of `[^@\s]` characters, `R` consists
only of `[^@\s]` characters (hence the `@` is unique), and `R` splits as
`B.C` with `B`, `C` nonempty runs of `[^@\s]` (dots are themselves in
the class, so this is exactly one internal dot position existing). -/
def emailCoreL (s : List Char) : Bool :=
  match s.dropWhile (fun c => !(c == '@')) with
  | [] => false
  | _ :: rest =>
      let localPart := s.takeWhile (fun c => !(c == '@'))
      !localPart.isEmpty && localPart.all okEmailChar &&
      rest.all okEmailChar && hasInternalDot rest

/-- `EMAIL_RE.match(s)` (the pattern is fully anchored). -/
def EMAIL_RE (s : String) : Bool := emailCoreL s.toList

/-- The character class `[0-9+()\-\s]`. -/
def phoneChar (c : Char) : Bool :=
  c.isDigit || c == '+' || c == '(' || c == ')' || c == '-' || isPySpace c

/-- `PHONE_RE.match(s)` with `PHONE_RE = ^[0-9+()\-\s]{7,}$`: at least
seven characters, all from the class. -/
def PHONE_RE (s : String) : Bool :=
  decide (7 ≤ s.toList.length) && s.toList.all phoneChar

/-- The allowed contact methods, the tuple `("Email", "Phone", "Mail")`. -/
def contactOptions : List String := ["Email", "Phone", "Mail"]

/-- `validate_fields(name, birthday, email, phone, preferred_contact)`
from `customerApp.py`, returning the `(ok, message)` pair.  Each branch
mirrors one `if` of the source, in order; note the source strips a field
again before matching it (`DATE_RE.match(birthday.strip())`) while the
emptiness test is on the unstripped argument (`if birthday and ...`). -/
def validate_fields (name birthday email phone preferred_contact : String) :
    Bool × String :=
  if pyStrip name = "" then (false, "Name is required.")
  else if birthday ≠ "" ∧ DATE_RE (pyStrip birthday) = false then
    (false, "Birthday must be YYYY-MM-DD (e.g., 2001-09-30).")
  else if email ≠ "" ∧ EMAIL_RE (pyStrip email) = false then
    (false, "Email format looks invalid.")
  else if phone ≠ "" ∧ PHONE_RE (pyStrip phone) = false then
    (false, "Phone should contain digits and ()-+ only (min 7 chars).")
  else if preferred_contact ∉ contactOptions then
    (false, "Choose a preferred contact method.")
  else (true, "OK")

/-- One row of the `customers` table of `init_db`.  `name` is `TEXT NOT
NULL` so it is a plain `String`; the five other data columns are
nullable `TEXT`, modelled as `Option String`; `created_at` defaults to
the current timestamp, supplied explicitly to `insert_customer`. -/
structure Row where
  id : Nat
  name : String
  birthday : Option String
  email : Option String
  phone : Option String
  address : Option String
  preferred_contact : Option String
  created_at : String
deriving DecidableEq

/-- Largest `id` present in the table (`0` when empty). -/
def maxId (db : List Row) : Nat := db.foldr (fun r m => max r.id m) 0

/-- The `id` SQLite's `INTEGER PRIMARY KEY AUTOINCREMENT` assigns to the
next inserted row.  The application never deletes rows, so the
`sqlite_sequence` counter always equals the largest `id` in the table
and the next key is one more than that. -/
def nextId (db : List Row) : Nat := maxId db + 1

/-- The `CHECK(preferred_contact in ('Email','Phone','Mail'))` column
constraint of `init_db`, with SQLite semantics: `NULL IN (...)` is NULL
and a CHECK evaluating to NULL is satisfied, so a NULL
`preferred_contact` passes. -/
def checkContact : Option String → Bool
  | none => true
  | some v => decide (v ∈ contactOptions)

/-- `insert_customer(name, birthday, email, phone, address,
preferred_contact)`: append one row with the auto-assigned `id` and the
`created_at` timestamp `now`, or fail when the CHECK constraint
rejects the write. -/
def insert_customer (db : List Row) (name : String)
    (birthday email phone address preferred_contact : Option String)
    (now : String) : Except String (List Row) :=
  if checkContact preferred_contact then
    Except.ok (db ++ [{ id := nextId db, name := name, birthday := birthday,
                        email := email, phone := phone, address := address,
                        preferred_contact := preferred_contact,
                        created_at := now }])
  else Except.error "CHECK constraint failed: customers"

/-- Insert `r` into a list already sorted by descending `id`, keeping it
sorted. -/
def insertDesc (r : Row) : List Row → List Row
  | [] => [r]
  | x :: xs => if x.id ≤ r.id then r :: x :: xs else x :: insertDesc r xs

/-- Insertion sort by descending `id`, the effect of `ORDER BY id DESC`. -/
def sortDesc : List Row → List Row
  | [] => []
  | x :: xs => insertDesc x (sortDesc xs)

/-- `fetch_customers()`: `SELECT ... FROM customers ORDER BY id DESC`. -/
def fetch_customers (db : List Row) : List Row := sortDesc db

/-- The six form fields of `CustomerApp` (the `StringVar`s). -/
structure FormState where
  name : String
  birthday : String
  email : String
  phone : String
  address : String
  preferred_contact : String
deriving DecidableEq

/-- `CustomerApp.clear_form()`: every text field empty,
`preferred_contact` back to its default `Email`. -/
def clear_form : FormState :=
  { name := "", birthday := "", email := "", phone := "", address := "",
    preferred_contact := "Email" }

/-- Outcome of one `submit` call: which message box is shown. -/
inductive SubmitResult where
  | validationError (msg : String)
  | storeError (msg : String)
  | success
deriving DecidableEq

/-- Observable state of the entry application: the form fields, the
database rows, and the rows currently displayed in the Treeview. -/
structure AppState where
  form : FormState
  db : List Row
  display : List Row
deriving DecidableEq

/-- Python `s or None` on a stripped string: blank becomes NULL. -/
def orNone (s : String) : Option String := if s = "" then none else some s

/-- The row a successful `submit` stores: trimmed field values, blanks
turned to NULL (`birthday or None`, ...), the auto-assigned `id`, and
the `created_at` timestamp. -/
def submittedRow (st : AppState) (now : String) : Row :=
  { id := nextId st.db,
    name := pyStrip st.form.name,
    birthday := orNone (pyStrip st.form.birthday),
    email := orNone (pyStrip st.form.email),
    phone := orNone (pyStrip st.form.phone),
    address := orNone (pyStrip st.form.address),
    preferred_contact := some (pyStrip st.form.preferred_contact),
    created_at := now }

/-- `CustomerApp.submit()`: strip every field, validate, insert, and on
success refresh the table (`refresh_table`, i.e. display
`fetch_customers` of the new database) and clear the form; on any
failure show the error and return with form, database and display
untouched. -/
def submit (st : AppState) (now : String) : SubmitResult × AppState :=
  match validate_fields (pyStrip st.form.name) (pyStrip st.form.birthday)
      (pyStrip st.form.email) (pyStrip st.form.phone)
      (pyStrip st.form.preferred_contact) with
  | (false, msg) => (SubmitResult.validationError msg, st)
  | (true, _) =>
      match insert_customer st.db (pyStrip st.form.name)
          (orNone (pyStrip st.form.birthday)) (orNone (pyStrip st.form.email))
          (orNone (pyStrip st.form.phone)) (orNone (pyStrip st.form.address))
          (some (pyStrip st.form.preferred_contact)) now with
      | Except.error e =>
          (SubmitResult.storeError ("Database error: " ++ e), st)
      | Except.ok db2 =>
          (SubmitResult.success,
           { form := clear_form, db := db2, display := fetch_customers db2 })

end CustomerApp

namespace DBViewerApp

/-- One user table as the standalone viewer sees it: its name, its
column names (from `PRAGMA table_info`), and its rows (cells modelled
as strings). -/
structure DbTable where
  name : String
  cols : List String
  rows : List (List String)
deriving DecidableEq

/-- The environment `_get_db_data` probes: either the database file does
not exist, or it exists and holds a (possibly empty) list of user
tables, ordered as `sqlite_master` lists them. -/
inductive DbEnv where
  | missing
  | present (tables : List DbTable)
deriving DecidableEq

/-- Status text set when `os.path.exists(DATABASE_FILE)` is false. -/
def fileNotFoundMsg : String :=
  "Status: Error - Database file 'customers.db' not found."

/-- Status text set when `sqlite_master` yields no user table. -/
def noTablesMsg : String :=
  "Status: Error - No customer tables found in the database."

/-- Status text set after a successful load of table `t`. -/
def loadedMsg (t : String) : String :=
  "Status: Successfully loaded data from table '" ++ t ++ "'."

/-- `DBViewerApp._get_db_data()`: returns `(column_names, rows)` or
`none` on the two discovery failures, together with the status label
text it sets.  The first user table found is the one rendered. -/
def getDbData : DbEnv → Option (List String × List (List String)) × String
  | DbEnv.missing => (none, fileNotFoundMsg)
  | DbEnv.present [] => (none, noTablesMsg)
  | DbEnv.present (t :: _) => (some (t.cols, t.rows), loadedMsg t.name)

/-- Observable state of the viewer: the Treeview's configured columns,
its rows, and the status label. -/
structure ViewerState where
  gridColumns : List String
  gridRows : List (List String)
  status : String
deriving DecidableEq

/-- `DBViewerApp.load_data()`: clear the grid, fetch, and populate only
when `column_names` is truthy (a nonempty list) and `rows` is not
`None`.  A total function: every branch returns a state, mirroring the
source's catch-all handlers that convert errors to status text. -/
def load_data (env : DbEnv) (_prev : ViewerState) : ViewerState :=
  match getDbData env with
  | (none, msg) => { gridColumns := [], gridRows := [], status := msg }
  | (some (cols, rows), msg) =>
      if cols.isEmpty then { gridColumns := [], gridRows := [], status := msg }
      else { gridColumns := cols, gridRows := rows, status := msg }

end DBViewerApp

namespace TextDump

/-- Render a nullable column, blank for NULL. -/
def optStr : Option String → String
  | none => ""
  | some s => s

/-- Modelled from the spec: the repository's non-interactive text dump
program is not among the provided source files; per the spec it prints
one fixed-format line per row, each line listing that row's fields as
`Name: ..., Birthday: ...` and so on. -/
def dump_line (r : CustomerApp.Row) : String :=
  "Name: " ++ r.name ++
  ", Birthday: " ++ optStr r.birthday ++
  ", Email: " ++ optStr r.email ++
  ", Phone: " ++ optStr r.phone ++
  ", Address: " ++ optStr r.address ++
  ", Preferred Contact: " ++ optStr r.preferred_contact

/-- Modelled from the spec: the dump connects to the same database file
and prints every row in natural row order (no reordering). -/
def text_dump (db : List CustomerApp.Row) : List String :=
  db.map dump_line

end TextDump

namespace CustomerApp

theorem insertDesc_perm (r : Row) : ∀ l : List Row,
    List.Perm (insertDesc r l) (r :: l)
  | [] => List.Perm.refl _
  | x :: xs => by
      unfold insertDesc
      split
      · exact List.Perm.refl _
      · exact ((insertDesc_perm r xs).cons x).trans (List.Perm.swap r x xs)

theorem mem_insertDesc {b r : Row} {l : List Row} :
    b ∈ insertDesc r l ↔ b = r ∨ b ∈ l := by
  rw [(insertDesc_perm r l).mem_iff, List.mem_cons]

theorem insertDesc_pairwise {r : Row} {l : List Row}
    (h : l.Pairwise (fun a b => b.id ≤ a.id)) :
    (insertDesc r l).Pairwise (fun a b => b.id ≤ a.id) := by
  induction l with
  | nil => simp [insertDesc]
  | cons x xs ih =>
      rw [List.pairwise_cons] at h
      unfold insertDesc
      split
      · next hle =>
          refine List.pairwise_cons.mpr ⟨?_, List.pairwise_cons.mpr h⟩
          intro b hb
          rcases List.mem_cons.mp hb with rfl | hbxs
          · exact hle
          · exact le_trans (h.1 b hbxs) hle
      · next hgt =>
          refine List.pairwise_cons.mpr ⟨?_, ih h.2⟩
          intro b hb
          rcases mem_insertDesc.mp hb with rfl | hbxs
          · exact Nat.le_of_lt (Nat.lt_of_not_le hgt)
          · exact h.1 b hbxs

theorem sortDesc_perm : ∀ l : List Row, List.Perm (sortDesc l) l
  | [] => List.Perm.refl _
  | x :: xs => (insertDesc_perm x (sortDesc xs)).trans ((sortDesc_perm xs).cons x)

theorem sortDesc_pairwise : ∀ l : List Row,
    (sortDesc l).Pairwise (fun a b => b.id ≤ a.id)
  | [] => List.Pairwise.nil
  | _ :: xs => insertDesc_pairwise (sortDesc_pairwise xs)

theorem mem_fetch_customers {r : Row} {db : List Row} :
    r ∈ fetch_customers db ↔ r ∈ db :=
  (sortDesc_perm db).mem_iff

/-- C7: `fetch_customers` (`list_all`) returns all rows of the customer
table — a permutation of the stored rows — ordered by `id` descending
(every row's `id` bounds the `id` of each later row from above), i.e.
most-recently-inserted first. -/
theorem fetch_customers_sorted_desc (db : List Row) :
    List.Perm (fetch_customers db) db ∧
    (fetch_customers db).Pairwise (fun a b => b.id ≤ a.id) :=
  ⟨sortDesc_perm db, sortDesc_pairwise db⟩

/-- C5: whenever `name` is empty or whitespace-only (its strip is
empty), `validate_fields` fails with exactly "Name is required.",
regardless of the other four arguments. -/
theorem validate_empty_name_fails
    (name birthday email phone preferred_contact : String)
    (h : pyStrip name = "") :
    validate_fields name birthday email phone preferred_contact =
      (false, "Name is required.") := by
  unfold validate_fields
  rw [if_pos h]

/-- Witness for C5 at the whitespace-only name `"   "` with garbage in
every other field. -/
theorem validate_empty_name_fails_witness :
    pyStrip "   " = "" ∧
    validate_fields "   " "junk" "junk" "junk" "Fax" =
      (false, "Name is required.") :=
  ⟨by decide, validate_empty_name_fails "   " "junk" "junk" "junk" "Fax" (by decide)⟩

/-- C4 counterexample: the claim as stated quantifies over inputs whose
fields match their patterns as given.  The raw phone `" 123456 "` does
match `^[0-9+()\-\s]{7,}$` (eight characters, all in the class), the
name is non-empty after trimming, birthday and email are empty and the
contact method is allowed, yet `validate_fields` rejects: the code
matches the pattern against `phone.strip()`, which has only six
characters. -/
theorem validate_raw_phone_counterexample :
    pyStrip "Bob" ≠ "" ∧ PHONE_RE " 123456 " = true ∧
    ("" : String) = "" ∧ "Email" ∈ contactOptions ∧
    (validate_fields "Bob" "" "" " 123456 " "Email").1 = false := by decide

/-- C4 (amended): for every input whose name is non-empty after
trimming, whose optional fields are each empty or match their pattern
after trimming, and whose contact method is allowed, `validate_fields`
succeeds. -/
theorem validate_accepts_wellformed
    (name birthday email phone preferred_contact : String)
    (hname : pyStrip name ≠ "")
    (hb : birthday = "" ∨ DATE_RE (pyStrip birthday) = true)
    (he : email = "" ∨ EMAIL_RE (pyStrip email) = true)
    (hp : phone = "" ∨ PHONE_RE (pyStrip phone) = true)
    (hc : preferred_contact ∈ contactOptions) :
    (validate_fields name birthday email phone preferred_contact).1 = true := by
  have hb' : ¬(birthday ≠ "" ∧ DATE_RE (pyStrip birthday) = false) := by
    rintro ⟨hne, hf⟩
    rcases hb with h | h
    · exact hne h
    · rw [h] at hf; exact Bool.noConfusion hf
  have he' : ¬(email ≠ "" ∧ EMAIL_RE (pyStrip email) = false) := by
    rintro ⟨hne, hf⟩
    rcases he with h | h
    · exact hne h
    · rw [h] at hf; exact Bool.noConfusion hf
  have hp' : ¬(phone ≠ "" ∧ PHONE_RE (pyStrip phone) = false) := by
    rintro ⟨hne, hf⟩
    rcases hp with h | h
    · exact hne h
    · rw [h] at hf; exact Bool.noConfusion hf
  unfold validate_fields
  rw [if_neg hname, if_neg hb', if_neg he', if_neg hp',
    if_neg (not_not_intro hc)]

/-- Witness for the amended C4 at a fully valid concrete input. -/
theorem validate_accepts_wellformed_witness :
    (pyStrip "Ada Lovelace" ≠ "" ∧
     ("1985-12-10" = "" ∨ DATE_RE (pyStrip "1985-12-10") = true) ∧
     ("ada@example.com" = "" ∨ EMAIL_RE (pyStrip "ada@example.com") = true) ∧
     ("555-1234" = "" ∨ PHONE_RE (pyStrip "555-1234") = true) ∧
     "Email" ∈ contactOptions) ∧
    (validate_fields "Ada Lovelace" "1985-12-10" "ada@example.com"
        "555-1234" "Email").1 = true :=
  ⟨by decide,
   validate_accepts_wellformed "Ada Lovelace" "1985-12-10" "ada@example.com"
     "555-1234" "Email" (by decide) (by decide) (by decide) (by decide)
     (by decide)⟩

/-- C6 counterexample: the claim as stated quantifies over inputs whose
birthday does not match `^\d{4}-\d{2}-\d{2}$`.  The raw birthday
`" 2001-09-30"` is non-empty and does not match (it starts with a
space), so the claim predicts a date-format failure, yet the code
strips the field before matching and accepts the whole input. -/
theorem validate_birthday_trim_counterexample :
    (" 2001-09-30" : String) ≠ "" ∧ DATE_RE " 2001-09-30" = false ∧
    validate_fields "Bob" " 2001-09-30" "" "" "Email" = (true, "OK") := by
  decide

/-- C6 (amended): for every input whose name is non-empty after
trimming and whose birthday is non-empty with its trimmed value not
matching `^\d{4}-\d{2}-\d{2}$`, `validate_fields` fails with exactly
the date-format message. -/
theorem validate_bad_birthday_fails
    (name birthday email phone preferred_contact : String)
    (hname : pyStrip name ≠ "") (hb : birthday ≠ "")
    (hd : DATE_RE (pyStrip birthday) = false) :
    validate_fields name birthday email phone preferred_contact =
      (false, "Birthday must be YYYY-MM-DD (e.g., 2001-09-30).") := by
  unfold validate_fields
  rw [if_neg hname, if_pos ⟨hb, hd⟩]

/-- Witness for the amended C6 at the spec's own example
`"09/30/2001"`. -/
theorem validate_bad_birthday_fails_witness :
    (pyStrip "Bob" ≠ "" ∧ ("09/30/2001" : String) ≠ "" ∧
     DATE_RE (pyStrip "09/30/2001") = false) ∧
    validate_fields "Bob" "09/30/2001" "" "" "Email" =
      (false, "Birthday must be YYYY-MM-DD (e.g., 2001-09-30).") :=
  ⟨by decide,
   validate_bad_birthday_fails "Bob" "09/30/2001" "" "" "Email" (by decide)
     (by decide) (by decide)⟩

/-- C1: every successful `submit` appends exactly one new row — the
trimmed submitted values with blanks stored as NULL — whose `id` is one
greater than the previous maximum `id` in the table, and a subsequent
`fetch_customers` (`list_all`) yields that row. -/
theorem submit_success_inserts_row (st : AppState) (now : String)
    (st2 : AppState) (h : submit st now = (SubmitResult.success, st2)) :
    st2.db = st.db ++ [submittedRow st now] ∧
    (submittedRow st now).id = maxId st.db + 1 ∧
    submittedRow st now ∈ fetch_customers st2.db ∧
    st2.db.length = st.db.length + 1 := by
  unfold submit at h
  split at h
  · injection h with h1 h2
    exact SubmitResult.noConfusion h1
  · split at h
    · injection h with h1 h2
      exact SubmitResult.noConfusion h1
    · next db2 heq =>
        injection h with h1 h2
        subst h2
        unfold insert_customer at heq
        split at heq
        · injection heq with h3
          subst h3
          refine ⟨rfl, rfl, ?_, by simp⟩
          exact mem_fetch_customers.mpr (by simp [submittedRow])
        · exact Except.noConfusion heq

/-- Concrete successful submission used by the C1 witness. -/
def adaState : AppState :=
  ⟨⟨" Ada Lovelace ", "1985-12-10", "ada@example.com", "555-1234",
    "1 Analytics Way", "Email"⟩, [], []⟩

/-- State after the C1 witness submission. -/
def adaState2 : AppState :=
  ⟨clear_form, [submittedRow adaState "2025-01-02 00:00:00"],
   [submittedRow adaState "2025-01-02 00:00:00"]⟩

/-- Witness for C1: the concrete submission succeeds and the theorem
applies to it. -/
theorem submit_success_inserts_row_witness :
    adaState2.db = adaState.db ++ [submittedRow adaState "2025-01-02 00:00:00"] ∧
    (submittedRow adaState "2025-01-02 00:00:00").id = maxId adaState.db + 1 ∧
    submittedRow adaState "2025-01-02 00:00:00" ∈ fetch_customers adaState2.db ∧
    adaState2.db.length = adaState.db.length + 1 :=
  submit_success_inserts_row adaState "2025-01-02 00:00:00" adaState2 (by decide)

/-- C2: every failing `submit` — validation failure or store failure —
leaves the whole application state (form fields, database rows,
displayed table) untouched, and signals either a validation error
carrying exactly the validator's message for the stripped fields or a
store error; in particular no row is inserted and the form clears only
on success. -/
theorem submit_failure_preserves_state (st : AppState) (now : String)
    (res : SubmitResult) (st2 : AppState)
    (h : submit st now = (res, st2)) (hres : res ≠ SubmitResult.success) :
    st2 = st ∧
    ((∃ m, res = SubmitResult.validationError m ∧
        validate_fields (pyStrip st.form.name) (pyStrip st.form.birthday)
          (pyStrip st.form.email) (pyStrip st.form.phone)
          (pyStrip st.form.preferred_contact) = (false, m)) ∨
     (∃ m, res = SubmitResult.storeError m)) := by
  unfold submit at h
  split at h
  · next msg heq =>
      injection h with h1 h2
      subst h1
      subst h2
      exact ⟨rfl, Or.inl ⟨msg, rfl, heq⟩⟩
  · split at h
    · next e heq =>
        injection h with h1 h2
        subst h1
        subst h2
        exact ⟨rfl, Or.inr ⟨"Database error: " ++ e, rfl⟩⟩
    · injection h with h1 h2
      exact absurd h1.symm hres

/-- Concrete failing submission (empty name) used by the C2 witness. -/
def emptyNameState : AppState :=
  ⟨⟨"", "1985-12-10", "ada@example.com", "555-1234", "1 Analytics Way",
    "Email"⟩,
   [⟨1, "Old", none, none, none, none, some "Mail", "t0"⟩],
   [⟨1, "Old", none, none, none, none, some "Mail", "t0"⟩]⟩

/-- Witness for C2: submitting with an empty name signals the
name-required validation error and changes nothing. -/
theorem submit_failure_preserves_state_witness :
    emptyNameState = emptyNameState ∧
    ((∃ m, SubmitResult.validationError "Name is required." =
          SubmitResult.validationError m ∧
        validate_fields (pyStrip emptyNameState.form.name)
          (pyStrip emptyNameState.form.birthday)
          (pyStrip emptyNameState.form.email)
          (pyStrip emptyNameState.form.phone)
          (pyStrip emptyNameState.form.preferred_contact) = (false, m)) ∨
     (∃ m, SubmitResult.validationError "Name is required." =
        SubmitResult.storeError m)) :=
  submit_failure_preserves_state emptyNameState "2025-01-03 00:00:00"
    (SubmitResult.validationError "Name is required.") emptyNameState
    (by decide) (by decide)

/-- C3: after every successful `submit` all form fields are reset to
empty, `preferred_contact` is reset to `Email`, and the displayed table
is refreshed to `fetch_customers` of the updated database. -/
theorem submit_success_clears_form (st : AppState) (now : String)
    (st2 : AppState) (h : submit st now = (SubmitResult.success, st2)) :
    st2.form.name = "" ∧ st2.form.birthday = "" ∧ st2.form.email = "" ∧
    st2.form.phone = "" ∧ st2.form.address = "" ∧
    st2.form.preferred_contact = "Email" ∧
    st2.display = fetch_customers st2.db := by
  unfold submit at h
  split at h
  · injection h with h1 h2
    exact SubmitResult.noConfusion h1
  · split at h
    · injection h with h1 h2
      exact SubmitResult.noConfusion h1
    · injection h with h1 h2
      subst h2
      exact ⟨rfl, rfl, rfl, rfl, rfl, rfl, rfl⟩

/-- Pre-existing row used by the C3 witness. -/
def oldRow : Row := ⟨5, "Old", none, none, none, none, some "Phone", "t0"⟩

/-- Concrete successful submission over a non-empty table, used by the
C3 witness. -/
def bobState : AppState :=
  ⟨⟨"Bob", "", "", "", "", "Mail"⟩, [oldRow], [oldRow]⟩

/-- State after the C3 witness submission: the new row gets id 6 and is
displayed first. -/
def bobState2 : AppState :=
  ⟨clear_form, [oldRow, submittedRow bobState "t1"],
   [submittedRow bobState "t1", oldRow]⟩

/-- Witness for C3: the concrete submission succeeds, the form resets
and the display equals the refreshed query. -/
theorem submit_success_clears_form_witness :
    bobState2.form.name = "" ∧ bobState2.form.birthday = "" ∧
    bobState2.form.email = "" ∧ bobState2.form.phone = "" ∧
    bobState2.form.address = "" ∧
    bobState2.form.preferred_contact = "Email" ∧
    bobState2.display = fetch_customers bobState2.db :=
  submit_success_clears_form bobState "t1" bobState2 (by decide)

/-- C8 counterexample: the claim states that every insert whose
`preferred_contact` is not one of the three allowed values fails.  A
NULL `preferred_contact` is not one of the three values, yet the insert
succeeds: the column carries no NOT NULL and SQLite treats a CHECK
evaluating to NULL as satisfied, so a stored row's `preferred_contact`
is not always one of the three allowed values. -/
theorem store_contact_null_counterexample :
    insert_customer [] "Nina" none none none none none "t" =
      Except.ok [⟨1, "Nina", none, none, none, none, none, "t"⟩] ∧
    (none : Option String) ∉ contactOptions.map some :=
  ⟨rfl, by decide⟩

/-- C8 (amended): the store rejects every insert whose
`preferred_contact` is a non-NULL value outside `{Email, Phone, Mail}`,
independent of the Validator; a NULL `preferred_contact` is accepted,
so every row a successful insert adds has `preferred_contact` either
NULL or one of the three allowed values. -/
theorem store_contact_check :
    (∀ (db : List Row) (name : String) (b e p a : Option String)
        (v : String) (now : String), v ∉ contactOptions →
        insert_customer db name b e p a (some v) now =
          Except.error "CHECK constraint failed: customers") ∧
    (∀ (db : List Row) (name : String) (b e p a pc : Option String)
        (now : String) (db2 : List Row),
        insert_customer db name b e p a pc now = Except.ok db2 →
        ∀ r ∈ db2, r ∈ db ∨ r.preferred_contact = none ∨
          ∃ v, r.preferred_contact = some v ∧ v ∈ contactOptions) := by
  constructor
  · intro db name b e p a v now hv
    have hc : checkContact (some v) = false := by
      simp only [checkContact]
      exact decide_eq_false hv
    simp [insert_customer, hc]
  · intro db name b e p a pc now db2 heq r hr
    unfold insert_customer at heq
    split at heq
    · next hchk =>
        injection heq with h2
        subst h2
        rcases List.mem_append.mp hr with h | h
        · exact Or.inl h
        · rcases List.mem_singleton.mp h with rfl
          match hpc : pc with
          | none => exact Or.inr (Or.inl rfl)
          | some v =>
              refine Or.inr (Or.inr ⟨v, rfl, ?_⟩)
              exact of_decide_eq_true hchk
    · exact Except.noConfusion heq

/-- Witness for the amended C8: a concrete bad value is rejected and a
concrete accepted insert stores an allowed value. -/
theorem store_contact_check_witness :
    ("Fax" ∉ contactOptions ∧
      insert_customer [] "Al" none none none none (some "Fax") "t" =
        Except.error "CHECK constraint failed: customers") ∧
    (insert_customer [] "Al" none none none none (some "Email") "t" =
        Except.ok [⟨1, "Al", none, none, none, none, some "Email", "t"⟩] ∧
      ∀ r ∈ [(⟨1, "Al", none, none, none, none, some "Email", "t"⟩ : Row)],
        r ∈ ([] : List Row) ∨ r.preferred_contact = none ∨
          ∃ v, r.preferred_contact = some v ∧ v ∈ contactOptions) :=
  ⟨⟨by decide,
    store_contact_check.1 [] "Al" none none none none "Fax" "t" (by decide)⟩,
   ⟨rfl,
    store_contact_check.2 [] "Al" none none none none (some "Email") "t"
      [⟨1, "Al", none, none, none, none, some "Email", "t"⟩] rfl⟩⟩

end CustomerApp

namespace DBViewerApp

/-- C9: refreshing the standalone viewer against a missing database
file or a database with no user table reports the corresponding
descriptive status message and leaves the grid empty, whatever the
previous viewer state was; `load_data` is a total function, so no
exception propagates. -/
theorem viewer_refresh_reports_status (prev : ViewerState) :
    load_data DbEnv.missing prev =
      ⟨[], [], fileNotFoundMsg⟩ ∧
    load_data (DbEnv.present []) prev =
      ⟨[], [], noTablesMsg⟩ :=
  ⟨rfl, rfl⟩

end DBViewerApp

namespace TextDump

/-- C10: the text dump prints exactly one line per stored row, in
natural row order — the `i`-th output line is the fixed-format
rendering of the `i`-th row. -/
theorem text_dump_one_line_per_row (db : List CustomerApp.Row) (i : Nat) :
    (text_dump db).length = db.length ∧
    (text_dump db)[i]? = Option.map dump_line db[i]? :=
  ⟨List.length_map db dump_line, List.getElem?_map dump_line db i⟩

end TextDump
